import Mathlib

/-!
Verification of the undici HTTP cache handler (`lib/handler/cache-handler.js`).

The file shallowly embeds the caching decision engine: the cacheability test
`canCacheResponse`, the freshness computations `determineStaleAt` and
`determineDeleteAt`, the header stripping helper, and the event methods of
`CacheHandler` (`onHeaders`, `onData`, `onComplete`, `onError`). JavaScript
truthiness and the `Infinity` capacity defaults are made explicit with
`Option`; times are integer epoch milliseconds with the single clock value
`now` standing for the `Date.now()` calls of one response.
-/

namespace Undici

/-- Parsed value of a Cache-Control directive that may carry a quoted
header-name list (`no-cache`, `private`): absent, bare flag (the literal
`true` the parser produces when the directive has no argument), or the list
of header names. -/
inductive ListDirective where
  | absent
  | flag
  | names (l : List String)
deriving DecidableEq

/-- Cache-Control directives as produced by `parseCacheControlHeader`
(`lib/util/cache.js`; per spec section 4.1 numeric directives parse to an
integer count of seconds, `no-cache` and `private` to a flag or a header-name
list, the remaining recognized directives to booleans). Field names mirror
the source keys: `publicD` is `public`, `sMaxage` is `s-maxage`, `privateD`
is `private`, `mustRevalidate` is `must-revalidate`, and so on. HTTP
delta-seconds are non-negative, hence `Nat`. -/
structure CacheControlDirectives where
  publicD : Bool := false
  sMaxage : Option Nat := none
  mustRevalidate : Bool := false
  privateD : ListDirective := ListDirective.absent
  noCache : ListDirective := ListDirective.absent
  noStore : Bool := false
  noTransform : Bool := false
  mustUnderstand : Bool := false
  proxyRevalidate : Bool := false
  immutable : Bool := false
  maxAge : Option Nat := none
  staleWhileRevalidate : Option Nat := none
deriving DecidableEq

/-- The parsed response-header fields the handler reads. `cacheControl` is
`some d` when the `cache-control` header is present and JS-truthy (nonempty)
and parses to `d`; `contentLength` is the raw string value of the
`content-length` header; `expire` is the epoch-millisecond value
`new Date(headers.expire).getTime()` when the handler finds a parseable date
under the key `expire` (the key the source reads at line 316). -/
structure Headers where
  cacheControl : Option CacheControlDirectives := none
  contentLength : Option String := none
  vary : Option String := none
  authorization : Option String := none
  expire : Option Int := none
deriving DecidableEq

/-- The slice of the cache store the handler reads: `entryCount`,
`maxEntries` and `maxEntrySize`, where `none` models the default
`Infinity`. -/
structure Store where
  entryCount : Nat := 0
  maxEntries : Option Nat := none
  maxEntrySize : Option Nat := none
deriving DecidableEq

/-- The cache entry (`CacheStoreValue`) the handler builds, mutates and
commits. Raw headers, body chunks and trailers are byte strings. -/
structure CacheValue where
  complete : Bool
  statusCode : Nat
  statusMessage : String
  rawHeaders : List String
  rawTrailers : Option (List String) := none
  body : List String
  vary : Option (List (String × String)) := none
  size : Nat
  cachedAt : Int
  staleAt : Int
  deleteAt : Int
deriving DecidableEq

/-- JS truthiness of an optional string header value: present and nonempty. -/
def strTruthy : Option String → Bool
  | none => false
  | some s => s != ""

/-- JS truthiness of an optional numeric directive value: present and
nonzero (`if (sMaxAge)` is false for `undefined` and for `0`). -/
def numTruthy : Option Nat → Bool
  | none => false
  | some n => n != 0

/-- Whether a list-valued directive is the bare flag (the strict
`=== true` comparisons of `canCacheResponse`). -/
def listIsFlag : ListDirective → Bool
  | ListDirective.flag => true
  | _ => false

/-- The `Array.isArray(x) && x.includes(name)` test of `canCacheResponse`. -/
def listIncludes : ListDirective → String → Bool
  | ListDirective.names l, s => l.contains s
  | _, _ => false

/-- Accumulator pass over a digit string: the value of the digits, or `none`
at the first non-digit character. -/
def digitsToNat : List Char → Nat → Option Nat
  | [], acc => some acc
  | c :: cs, acc =>
    if c.isDigit then digitsToNat cs (acc * 10 + (c.toNat - 48))
    else none

/-- Model of `Number(s)` composed with the `Number.isInteger` test that
always follows it in the source: an optional minus sign followed by digits
yields the integer, anything else yields `none` and fails the integer test.
The model conflates every other input with the rejected ones: `NaN` sources
and fractional values fail `Number.isInteger` in the source exactly as here;
more exotic accepted spellings of integers (exponents, a leading plus or
whitespace) are outside the inputs considered. -/
def jsNumber (s : String) : Option Int :=
  match s.data with
  | [] => none
  | ['-'] => none
  | '-' :: c :: rest => Option.map (fun n => -(n : Int)) (digitsToNat (c :: rest) 0)
  | cs => Option.map (fun n => (n : Int)) (digitsToNat cs 0)

/-- The `#getSizeOfBuffers` helper: total length of the listed buffers. -/
def sizeOfBuffers (arr : List String) : Nat :=
  List.foldl (fun acc s => acc + s.length) 0 arr

/-- `x > cap` where `cap = none` models `Infinity`, which is never
exceeded. -/
def exceedsCap (x : Int) (cap : Option Nat) : Bool :=
  match cap with
  | none => false
  | some m => decide ((m : Int) < x)

/-- The `entryCount >= maxEntries` capacity test of `onHeaders`. -/
def atCapacity (n : Nat) (cap : Option Nat) : Bool :=
  match cap with
  | none => false
  | some m => decide (m ≤ n)

/-- The `#getMaxEntrySize() > size` commit test of `onComplete`. -/
def capGtSize (cap : Option Nat) (n : Nat) : Bool :=
  match cap with
  | none => true
  | some m => decide (n < m)

/-- Translation of `canCacheResponse` (`cache-handler.js` lines 237 to 289),
with the same test order and short-circuiting. -/
def canCacheResponse (statusCode : Nat) (headers : Headers)
    (d : CacheControlDirectives) : Bool :=
  if statusCode != 200 && statusCode != 307 then false
  else if !d.publicD && !numTruthy d.sMaxage && !d.mustRevalidate then false
  else if listIsFlag d.privateD || listIsFlag d.noCache || d.noStore
      || d.noTransform || d.mustUnderstand || d.proxyRevalidate then false
  else if headers.vary == some "*" then false
  else if strTruthy headers.authorization then
    if listIncludes d.noCache "authorization" then false
    else if listIncludes d.privateD "authorization" then false
    else true
  else true

/-- Translation of `determineStaleAt` (lines 297 to 322). `now` stands for
`Date.now()` (the source samples the clock once in `onHeaders` and once in
the `Expires` branch; the single-instant abstraction equates the two).
Returns the staleness window in milliseconds, or `none` for `undefined`.
Note the `immutable` branch returns the literal `31536000` with no `* 1000`,
exactly as the source does. -/
def determineStaleAt (now : Int) (headers : Headers)
    (d : CacheControlDirectives) : Option Int :=
  if numTruthy d.sMaxage then some ((d.sMaxage.getD 0 : Int) * 1000)
  else if d.immutable then some 31536000
  else if numTruthy d.maxAge then some ((d.maxAge.getD 0 : Int) * 1000)
  else
    match headers.expire with
    | some t => some (now - t)
    | none => none

/-- Translation of `determineDeleteAt` (lines 328 to 334): the
`stale-while-revalidate` window replaces the staleness window when the
directive is truthy. -/
def determineDeleteAt (d : CacheControlDirectives) (staleAt : Int) : Int :=
  if numTruthy d.staleWhileRevalidate then (d.staleWhileRevalidate.getD 0 : Int) * 1000
  else staleAt

/-- Modelled from the spec: `parseVaryHeader` lives in `lib/util/cache.js`,
which is not among the files under study. Spec section 4.1: it parses a raw
Vary value into the header names it lists (trimmed, case-normalized); spec
section 4.2: the vary snapshot pairs each named header with its value from
the original request. -/
def parseVaryHeader (vary : String) (reqHeaders : List (String × String)) :
    List (String × String) :=
  List.map (fun s =>
    let n := s.trim.toLower
    (n, (List.lookup n reqHeaders).getD "")) (vary.splitOn ",")

/-- Translation of `stripNecessaryHeaders` (lines 343 to 377) as it
executes: it builds the removal list and then runs
`for (let i = 0; i < parsedHeaders.length; i++)`. At the only call site
(line 110) `parsedHeaders` is the parsed header record, not an array, so
`parsedHeaders.length` is `undefined`, the loop guard `0 < undefined` is
false and the loop body never runs; `strippedRawHeaders` is still
`undefined` afterwards and `strippedRawHeaders ??= rawHeaders` returns the
raw header list unchanged. (Even on an array argument the membership test
`headerName in headersToRemove` would test the array indices `0`, `1`, ...,
never the listed names, and could therefore not match `connection`.) -/
def stripNecessaryHeaders (rawHeaders : List String) (_headers : Headers)
    (_d : CacheControlDirectives) : List String :=
  let strippedRawHeaders : Option (List String) := none
  strippedRawHeaders.getD rawHeaders

/-- The caching decision of `CacheHandler.onHeaders` (lines 51 to 139): the
provisional entry assigned to the private `value` field, or `none` when no
entry is created. The data the method reads from its environment is passed
explicitly: the store introspection `store`, the original request headers
`reqHeaders` (for the vary snapshot) and the clock `now`. -/
def onHeaders (store : Store) (reqHeaders : List (String × String)) (now : Int)
    (statusCode : Nat) (rawHeaders : List String) (statusMessage : String)
    (headers : Headers) : Option CacheValue :=
  match headers.cacheControl, headers.contentLength with
  | some cacheControlDirectives, some contentLengthHeader =>
    let maxEntrySize := store.maxEntrySize
    let contentLength := jsNumber contentLengthHeader
    let currentSize := sizeOfBuffers rawHeaders + statusMessage.length + 64
    if contentLength.isNone
        || exceedsCap (contentLength.getD 0) maxEntrySize
        || exceedsCap (currentSize : Int) maxEntrySize
        || atCapacity store.entryCount store.maxEntries then none
    else if !canCacheResponse statusCode headers cacheControlDirectives then none
    else
      match determineStaleAt now headers cacheControlDirectives with
      | some staleAt =>
        if staleAt != 0 then
          some
            { complete := false
              statusCode := statusCode
              statusMessage := statusMessage
              rawHeaders := stripNecessaryHeaders rawHeaders headers cacheControlDirectives
              body := []
              vary := Option.map (fun v => parseVaryHeader v reqHeaders) headers.vary
              size := currentSize
              cachedAt := now
              staleAt := now + staleAt
              deleteAt := now + determineDeleteAt cacheControlDirectives staleAt }
        else none
      | none => none
  | _, _ => none

/-- The caching decision of `CacheHandler.onData` (lines 147 to 161): the
content of the private `value` field after one body chunk. -/
def onData (maxEntrySize : Option Nat) (value : Option CacheValue)
    (chunk : String) : Option CacheValue :=
  match value with
  | none => none
  | some v =>
    let grown : CacheValue := { v with size := v.size + chunk.length }
    if exceedsCap (grown.size : Int) maxEntrySize then none
    else some { grown with body := grown.body ++ [chunk] }

/-- The finalization `onComplete` performs on an existing provisional entry
(lines 170 to 172): mark complete, attach the trailers, add the trailer
bytes to the size. -/
def completeValue (v : CacheValue) (rawTrailers : List String) : CacheValue :=
  { v with
    complete := true
    rawTrailers := some rawTrailers
    size := v.size + sizeOfBuffers rawTrailers }

/-- The commit decision of `CacheHandler.onComplete` (lines 168 to 186): the
entry passed to `store.put`, or `none` when nothing is committed. -/
def onComplete (maxEntrySize : Option Nat) (value : Option CacheValue)
    (rawTrailers : List String) : Option CacheValue :=
  match value with
  | none => none
  | some v =>
    let v := completeValue v rawTrailers
    if capGtSize maxEntrySize v.size then some v else none

/-- One full response through the handler: headers, then the body chunks in
order, then completion. Yields the entry committed to the store, if any. -/
def processResponse (store : Store) (reqHeaders : List (String × String))
    (now : Int) (statusCode : Nat) (rawHeaders : List String)
    (statusMessage : String) (headers : Headers) (chunks : List String)
    (rawTrailers : List String) : Option CacheValue :=
  onComplete store.maxEntrySize
    (List.foldl (onData store.maxEntrySize)
      (onHeaders store reqHeaders now statusCode rawHeaders statusMessage headers)
      chunks)
    rawTrailers

/-- The wrapped downstream handler (`this.#handler`): one function per
response event. `ρ` is the type of the opaque resume callback; `α`, `β` and
`γ` are the return types of the wrapped methods, which the cache handler
propagates. The wrapped `onError` returns no value, like the source method. -/
structure Wrapped (ρ α β γ : Type) where
  onHeaders : Nat → List String → ρ → String → Headers → α
  onData : String → β
  onComplete : List String → γ
  onError : String → Unit

/-- `CacheHandler.onHeaders` in full: the new content of the `value` field
together with the value the method returns, which in every one of the four
return sites (lines 63, 82, 93 and 131) is the wrapped handler invoked with
the same five arguments the method received. On a path that builds no entry
the field keeps its previous content. -/
def onHeadersFull {ρ α β γ : Type} (w : Wrapped ρ α β γ) (store : Store)
    (reqHeaders : List (String × String)) (now : Int) (value : Option CacheValue)
    (statusCode : Nat) (rawHeaders : List String) (resume : ρ)
    (statusMessage : String) (headers : Headers) : Option CacheValue × α :=
  match headers.cacheControl, headers.contentLength with
  | some cacheControlDirectives, some contentLengthHeader =>
    let maxEntrySize := store.maxEntrySize
    let contentLength := jsNumber contentLengthHeader
    let currentSize := sizeOfBuffers rawHeaders + statusMessage.length + 64
    if contentLength.isNone
        || exceedsCap (contentLength.getD 0) maxEntrySize
        || exceedsCap (currentSize : Int) maxEntrySize
        || atCapacity store.entryCount store.maxEntries then
      (value, w.onHeaders statusCode rawHeaders resume statusMessage headers)
    else if !canCacheResponse statusCode headers cacheControlDirectives then
      (value, w.onHeaders statusCode rawHeaders resume statusMessage headers)
    else
      let newValue :=
        match determineStaleAt now headers cacheControlDirectives with
        | some staleAt =>
          if staleAt != 0 then
            some
              { complete := false
                statusCode := statusCode
                statusMessage := statusMessage
                rawHeaders := stripNecessaryHeaders rawHeaders headers cacheControlDirectives
                body := []
                vary := Option.map (fun v => parseVaryHeader v reqHeaders) headers.vary
                size := currentSize
                cachedAt := now
                staleAt := now + staleAt
                deleteAt := now + determineDeleteAt cacheControlDirectives staleAt }
          else value
        | none => value
      (newValue, w.onHeaders statusCode rawHeaders resume statusMessage headers)
  | _, _ => (value, w.onHeaders statusCode rawHeaders resume statusMessage headers)

/-- `CacheHandler.onData` in full: the new `value` field and the forwarded
return value (lines 147 to 161). -/
def onDataFull {ρ α β γ : Type} (w : Wrapped ρ α β γ) (maxEntrySize : Option Nat)
    (value : Option CacheValue) (chunk : String) : Option CacheValue × β :=
  (onData maxEntrySize value chunk, w.onData chunk)

/-- `CacheHandler.onComplete` in full: the `value` field keeps the finalized
entry (the method never clears it) and the wrapped return value is
propagated (lines 168 to 186). -/
def onCompleteFull {ρ α β γ : Type} (w : Wrapped ρ α β γ)
    (value : Option CacheValue) (rawTrailers : List String) :
    Option CacheValue × γ :=
  (Option.map (fun v => completeValue v rawTrailers) value,
    w.onComplete rawTrailers)

/-- `CacheHandler.onError` (lines 193 to 198): discard any provisional
entry, forward the error. Both the source method and the wrapped `onError`
return no value. -/
def onErrorFull {ρ α β γ : Type} (w : Wrapped ρ α β γ)
    (_value : Option CacheValue) (err : String) : Option CacheValue × Unit :=
  (none, w.onError err)

/-! ## Helper lemmas shared by the claim theorems -/

/-- An abandoned entry stays abandoned through any further body chunks. -/
theorem foldData_none (cap : Option Nat) (cs : List String) :
    List.foldl (onData cap) none cs = none := by
  induction cs with
  | nil => rfl
  | cons c cs ih => rw [List.foldl_cons]; exact ih

/-- `onData` never changes the timestamps of the provisional entry. -/
theorem onData_stamps (cap : Option Nat) (st : Option CacheValue) (c : String)
    (v : CacheValue) (h : onData cap st c = some v) :
    ∃ u, st = some u ∧ v.cachedAt = u.cachedAt ∧ v.staleAt = u.staleAt
      ∧ v.deleteAt = u.deleteAt := by
  cases st with
  | none => exact Option.noConfusion h
  | some u =>
    refine ⟨u, rfl, ?_⟩
    simp only [onData] at h
    split at h
    · exact Option.noConfusion h
    · injection h with h
      subst h
      exact ⟨rfl, rfl, rfl⟩

/-- A whole body stream never changes the timestamps of the provisional
entry. -/
theorem foldData_stamps (cap : Option Nat) (cs : List String) :
    ∀ (st : Option CacheValue) (v : CacheValue),
      List.foldl (onData cap) st cs = some v →
      ∃ u, st = some u ∧ v.cachedAt = u.cachedAt ∧ v.staleAt = u.staleAt
        ∧ v.deleteAt = u.deleteAt := by
  induction cs with
  | nil => exact fun st v h => ⟨v, h, rfl, rfl, rfl⟩
  | cons c cs ih =>
    intro st v h
    rw [List.foldl_cons] at h
    obtain ⟨u1, hu1, h1, h2, h3⟩ := ih (onData cap st c) v h
    obtain ⟨u, hu, g1, g2, g3⟩ := onData_stamps cap st c u1 hu1
    exact ⟨u, hu, h1.trans g1, h2.trans g2, h3.trans g3⟩

/-- A committed entry has the timestamps of the provisional entry it
finalizes. -/
theorem onComplete_stamps (cap : Option Nat) (st : Option CacheValue)
    (t : List String) (e : CacheValue) (h : onComplete cap st t = some e) :
    ∃ u, st = some u ∧ e.cachedAt = u.cachedAt ∧ e.staleAt = u.staleAt
      ∧ e.deleteAt = u.deleteAt := by
  cases st with
  | none => exact Option.noConfusion h
  | some u =>
    refine ⟨u, rfl, ?_⟩
    simp only [onComplete] at h
    split at h
    · injection h with h
      subst h
      exact ⟨rfl, rfl, rfl⟩
    · exact Option.noConfusion h

/-- A provisional entry built by `onHeaders` has `cachedAt = now`,
`staleAt = now + w` and `deleteAt = now + determineDeleteAt d w` for the
staleness window `w` of `determineStaleAt`, which is JS-truthy (nonzero). -/
theorem onHeaders_build (store : Store) (reqHeaders : List (String × String))
    (now : Int) (statusCode : Nat) (rawHeaders : List String)
    (statusMessage : String) (headers : Headers) (d : CacheControlDirectives)
    (v : CacheValue) (hcc : headers.cacheControl = some d)
    (h : onHeaders store reqHeaders now statusCode rawHeaders statusMessage headers
          = some v) :
    ∃ w, determineStaleAt now headers d = some w ∧ w ≠ 0 ∧ v.cachedAt = now
      ∧ v.staleAt = now + w ∧ v.deleteAt = now + determineDeleteAt d w := by
  unfold onHeaders at h
  rw [hcc] at h
  cases hcl : headers.contentLength with
  | none => rw [hcl] at h; exact Option.noConfusion h
  | some cl =>
    rw [hcl] at h
    simp only at h
    split at h
    · exact Option.noConfusion h
    · split at h
      · exact Option.noConfusion h
      · cases hsw : determineStaleAt now headers d with
        | none => rw [hsw] at h; exact Option.noConfusion h
        | some w =>
          rw [hsw] at h
          simp only at h
          rcases eq_or_ne w 0 with h0 | h0
          · subst h0
            simp at h
          · have hb : (w != 0) = true := by simpa using h0
            rw [if_pos hb] at h
            injection h with h
            subst h
            exact ⟨w, rfl, h0, rfl, rfl, rfl⟩

/-! ## Claim theorems -/

/-- Claim C9: for every response event and every caching outcome, the handler
invokes the corresponding method of the wrapped handler with the same
arguments it received and propagates that return value; the caching decision
only changes the private entry field. -/
theorem c9ForwardingTransparent {ρ α β γ : Type} (w : Wrapped ρ α β γ)
    (store : Store) (reqHeaders : List (String × String)) (now : Int)
    (value : Option CacheValue) (statusCode : Nat) (rawHeaders : List String)
    (resume : ρ) (statusMessage : String) (headers : Headers) (chunk : String)
    (rawTrailers : List String) (err : String) :
    (onHeadersFull w store reqHeaders now value statusCode rawHeaders resume
        statusMessage headers).2
      = w.onHeaders statusCode rawHeaders resume statusMessage headers
    ∧ (onDataFull w store.maxEntrySize value chunk).2 = w.onData chunk
    ∧ (onCompleteFull w value rawTrailers).2 = w.onComplete rawTrailers
    ∧ (onErrorFull w value err).2 = w.onError err := by
  refine ⟨?_, rfl, rfl, rfl⟩
  unfold onHeadersFull
  cases headers.cacheControl with
  | none => rfl
  | some d =>
    cases headers.contentLength with
    | none => rfl
    | some cl =>
      simp only
      split
      · rfl
      · split
        · rfl
        · rfl

/-- Claim C2 counterexample: in exactly the scenario of the claim (status
200, `Cache-Control: max-age=10` and no other directive, Content-Length 3,
body `abc`) no entry is ever committed, because the shared-cache
authorization test of `canCacheResponse` (none of `public`, `s-maxage` or
`must-revalidate` present) rejects the response before any entry is built. -/
theorem c2Counterexample :
    processResponse { entryCount := 0 } [] 0 200 ["content-type: text/plain"] ""
      { cacheControl := some { maxAge := some 10 }, contentLength := some "3" }
      ["abc"] [] = none := by rfl

/-- Claim C2 amended: the scenario commits the described entry once the
response also carries `public` (so that the shared-cache authorization test
passes): status 200, `Cache-Control: public, max-age=10`, Content-Length 3
and body `abc` commit an entry with `staleAt = cachedAt + 10000` ms,
`deleteAt = staleAt` and body `["abc"]`. -/
theorem c2ScenarioPublic (now : Int) :
    processResponse { entryCount := 0 } [] now 200 ["content-type: text/plain"] ""
      { cacheControl := some { publicD := true, maxAge := some 10 },
        contentLength := some "3" } ["abc"] []
      = some
        { complete := true
          statusCode := 200
          statusMessage := ""
          rawHeaders := ["content-type: text/plain"]
          rawTrailers := some []
          body := ["abc"]
          vary := none
          size := 91
          cachedAt := now
          staleAt := now + 10000
          deleteAt := now + 10000 } := by rfl

/-- Claim C3 counterexample: the response `Cache-Control: public,
s-maxage=20, stale-while-revalidate=5` is committed with
`staleAt = cachedAt + 20000` but `deleteAt = cachedAt + 5000`, so the
committed entry violates `staleAt ≤ deleteAt` (the stale-while-revalidate
window replaces the delete window instead of extending it). -/
theorem c3Counterexample :
    Option.map (fun e => decide (e.staleAt ≤ e.deleteAt))
      (processResponse { entryCount := 0 } [] 0 200 [] ""
        { cacheControl :=
            some { publicD := true, sMaxage := some 20, staleWhileRevalidate := some 5 }
          contentLength := some "3" } [] [])
      = some false := by rfl

/-- Claim C3 amended: every committed entry satisfies
`cachedAt ≤ staleAt ≤ deleteAt` provided the staleness window `w` is
nonnegative (which holds whenever it comes from `s-maxage`, `immutable` or
`max-age`, but can fail for the `Expires` fallback) and the delete window is
at least `w` (which fails when `stale-while-revalidate` is shorter than the
freshness lifetime). -/
theorem c3StampOrdering (store : Store) (reqHeaders : List (String × String))
    (now : Int) (statusCode : Nat) (rawHeaders : List String)
    (statusMessage : String) (headers : Headers) (chunks : List String)
    (rawTrailers : List String) (d : CacheControlDirectives) (w : Int)
    (e : CacheValue) (hcc : headers.cacheControl = some d)
    (hw : determineStaleAt now headers d = some w) (h0 : 0 ≤ w)
    (h1 : w ≤ determineDeleteAt d w)
    (hcommit : processResponse store reqHeaders now statusCode rawHeaders
        statusMessage headers chunks rawTrailers = some e) :
    e.cachedAt ≤ e.staleAt ∧ e.staleAt ≤ e.deleteAt := by
  unfold processResponse at hcommit
  obtain ⟨u1, hu1, e1, e2, e3⟩ := onComplete_stamps _ _ _ _ hcommit
  obtain ⟨u2, hu2, f1, f2, f3⟩ := foldData_stamps _ _ _ _ hu1
  obtain ⟨w2, hw2, hne, g1, g2, g3⟩ :=
    onHeaders_build _ _ _ _ _ _ _ _ _ hcc hu2
  rw [hw] at hw2
  injection hw2 with hw2
  subst hw2
  constructor
  · rw [e1, f1, g1, e2, f2, g2]
    omega
  · rw [e2, f2, g2, e3, f3, g3]
    omega

/-- The response headers of the C3 witness scenario:
`Cache-Control: public, s-maxage=5, stale-while-revalidate=10`. -/
def c3GoodHeaders : Headers :=
  { cacheControl :=
      some { publicD := true, sMaxage := some 5, staleWhileRevalidate := some 10 }
    contentLength := some "3" }

/-- The entry the C3 witness scenario commits. -/
def c3GoodEntry : CacheValue :=
  { complete := true, statusCode := 200, statusMessage := "", rawHeaders := [],
    rawTrailers := some [], body := [], vary := none, size := 64,
    cachedAt := 0, staleAt := 5000, deleteAt := 10000 }

/-- Witness for the amended claim C3, at the concrete scenario
`Cache-Control: public, s-maxage=5, stale-while-revalidate=10`. -/
theorem c3StampOrderingWitness :
    c3GoodEntry.cachedAt ≤ c3GoodEntry.staleAt
      ∧ c3GoodEntry.staleAt ≤ c3GoodEntry.deleteAt :=
  c3StampOrdering { entryCount := 0 } [] 0 200 [] "" c3GoodHeaders [] []
    { publicD := true, sMaxage := some 5, staleWhileRevalidate := some 10 }
    5000 c3GoodEntry rfl (by decide) (by decide) (by decide) (by decide)

/-- Claim C4: contrary to the spec, the stored raw header list is the
response raw header list unchanged. At a response whose raw headers carry a
`Connection` header and an `x-debug` header named by the `no-cache` list,
the provisional entry keeps both: the stripping loop of
`stripNecessaryHeaders` never runs (its bound is the `length` property of
the parsed-header record, which is `undefined`). -/
theorem c4NothingStripped :
    Option.map (fun e => e.rawHeaders)
      (onHeaders { entryCount := 0 } [] 0 200
        ["connection: close", "x-debug: 1", "content-type: text/plain"] ""
        { cacheControl :=
            some { publicD := true, sMaxage := some 5, noCache := ListDirective.names ["x-debug"] }
          contentLength := some "3" })
      = some ["connection: close", "x-debug: 1", "content-type: text/plain"] := by
  rfl

/-- Claim C6: the `immutable` branch of `determineStaleAt` does take
priority over `max-age` and `Expires`, but returns the literal `31536000`
(the one-year constant in seconds) as a millisecond window, so the
committed entry has `staleAt = cachedAt + 31536000` ms (about 8.76 hours),
not `cachedAt + 31536000000` ms. -/
theorem c6ImmutableWindow :
    determineStaleAt 0 { expire := some (-5) }
      { immutable := true, maxAge := some 99 } = some 31536000
    ∧ Option.map (fun e => (e.cachedAt, e.staleAt))
        (onHeaders { entryCount := 0 } [] 0 200 [] ""
          { cacheControl :=
              some { publicD := true, immutable := true, maxAge := some 99 }
            contentLength := some "3", expire := some (-5) })
        = some (0, 31536000) := by
  exact ⟨rfl, rfl⟩

/-- Claim C1 counterexample: a request carrying an Authorization header
whose response has `Cache-Control: public, s-maxage=5` and no
`no-cache="authorization"` or `private="authorization"` exemption passes
`canCacheResponse` and a provisional entry is created — the claim says such
a response is never cached. -/
theorem c1Counterexample :
    canCacheResponse 200 { authorization := some "token" }
      { publicD := true, sMaxage := some 5 } = true
    ∧ (onHeaders { entryCount := 0 } [] 0 200 [] ""
        { cacheControl := some { publicD := true, sMaxage := some 5 }
          contentLength := some "3", authorization := some "token" }).isSome
      = true := by
  exact ⟨rfl, rfl⟩

/-- Claim C1 amended: the source inverts the exemption of the claim. When
the request carries an Authorization header, `canCacheResponse` accepts the
response exactly when it would accept it without that header AND neither the
`no-cache` nor the `private` directive carries a header-name list containing
`authorization`; naming `authorization` in either list causes rejection
rather than permitting caching. -/
theorem c1AuthListedRejects (statusCode : Nat) (headers : Headers)
    (d : CacheControlDirectives)
    (hauth : strTruthy headers.authorization = true) :
    canCacheResponse statusCode headers d =
      (canCacheResponse statusCode { headers with authorization := none } d
        && !listIncludes d.noCache "authorization"
        && !listIncludes d.privateD "authorization") := by
  unfold canCacheResponse
  rw [hauth]
  have hv : ({ headers with authorization := none } : Headers).vary
      = headers.vary := rfl
  have hns : strTruthy ({ headers with authorization := none } : Headers).authorization
      = false := rfl
  rw [hv, hns]
  split_ifs <;> simp_all

/-- Witness for the amended claim C1: request with Authorization, response
`Cache-Control: public` with no list naming `authorization`. -/
theorem c1AuthListedRejectsWitness :
    strTruthy (Headers.authorization { authorization := some "token" }) = true
    ∧ canCacheResponse 200 { authorization := some "token" } { publicD := true }
      = (canCacheResponse 200
            ({ authorization := some "token" : Headers } ) { publicD := true }
          && !listIncludes ListDirective.absent "authorization"
          && !listIncludes ListDirective.absent "authorization") := by
  exact ⟨rfl, c1AuthListedRejects 200 { authorization := some "token" }
    { publicD := true } rfl⟩

/-- Claim C5: when none of `s-maxage`, `immutable` and `max-age` applies and
the response carries an `Expires` date `t`, the staleness window is
`now - t` (the literal sign convention of the source), and — all other
checks passing — a provisional entry is built from that window whenever it
is JS-truthy (nonzero), with `staleAt = now + (now - t)`. -/
theorem c5ExpiresFallback (store : Store) (reqHeaders : List (String × String))
    (now t : Int) (statusCode : Nat) (rawHeaders : List String)
    (statusMessage : String) (headers : Headers) (d : CacheControlDirectives)
    (cl : String) (h1 : numTruthy d.sMaxage = false) (h2 : d.immutable = false)
    (h3 : numTruthy d.maxAge = false) (hexp : headers.expire = some t)
    (hcc : headers.cacheControl = some d) (hcl : headers.contentLength = some cl)
    (hn : (jsNumber cl).isNone = false)
    (hc1 : exceedsCap ((jsNumber cl).getD 0) store.maxEntrySize = false)
    (hc2 : exceedsCap ((sizeOfBuffers rawHeaders + statusMessage.length + 64 : Nat) : Int)
        store.maxEntrySize = false)
    (hc3 : atCapacity store.entryCount store.maxEntries = false)
    (hcan : canCacheResponse statusCode headers d = true)
    (hne : now - t ≠ 0) :
    determineStaleAt now headers d = some (now - t)
    ∧ Option.map (fun e => e.staleAt)
        (onHeaders store reqHeaders now statusCode rawHeaders statusMessage headers)
      = some (now + (now - t)) := by
  have hst : determineStaleAt now headers d = some (now - t) := by
    unfold determineStaleAt
    rw [h1, h2, h3, hexp]
    simp
  refine ⟨hst, ?_⟩
  unfold onHeaders
  rw [hcc, hcl]
  simp only
  rw [hn, hc1, hc2, hc3, hcan, hst]
  simp [hne]

/-- The headers of the C5 witness scenario: `Cache-Control: public`,
Content-Length 3, Expires parsing to epoch-millisecond 40, clock at 100. -/
def c5ExpHeaders : Headers :=
  { cacheControl := some { publicD := true }, contentLength := some "3",
    expire := some 40 }

/-- Witness for claim C5 at the concrete scenario `now = 100`, `t = 40`:
window `60`, entry built with `staleAt = 160`. -/
theorem c5ExpiresFallbackWitness :
    determineStaleAt 100 c5ExpHeaders { publicD := true } = some (100 - 40)
    ∧ Option.map (fun e => e.staleAt)
        (onHeaders { entryCount := 0 } [] 100 200 [] "" c5ExpHeaders)
      = some (100 + (100 - 40)) :=
  c5ExpiresFallback { entryCount := 0 } [] 100 40 200 [] "" c5ExpHeaders
    { publicD := true } "3" rfl rfl rfl rfl rfl rfl rfl rfl rfl rfl rfl
    (by decide)

/-- Claim C7 counterexample: a negative Content-Length (`-5`) passes the
`Number.isInteger` test (the source never checks the sign) and, the other
checks passing, a provisional entry is created — the claim requires a valid
non-negative integer. -/
theorem c7Counterexample :
    jsNumber "-5" = some (-5)
    ∧ (onHeaders { entryCount := 0 } [] 0 200 [] ""
        { cacheControl := some { publicD := true, sMaxage := some 5 }
          contentLength := some "-5" }).isSome = true := by
  exact ⟨rfl, rfl⟩

/-- Claim C7 amended: a provisional entry is created only when Cache-Control
and Content-Length are present, Content-Length parses as an integer (the
sign is not checked), neither it nor the computed current size (raw header
bytes + status-message length + 64) exceeds the maximum entry size, and the
entry count is strictly below the maximum; and when `onHeaders` creates no
entry, nothing is ever committed for that response. -/
theorem c7EligibilityConditions (store : Store)
    (reqHeaders : List (String × String)) (now : Int) (statusCode : Nat)
    (rawHeaders : List String) (statusMessage : String) (headers : Headers)
    (chunks : List String) (rawTrailers : List String) :
    ((onHeaders store reqHeaders now statusCode rawHeaders statusMessage
        headers).isSome = true →
      ∃ d cl, headers.cacheControl = some d ∧ headers.contentLength = some cl
        ∧ (jsNumber cl).isSome = true
        ∧ exceedsCap ((jsNumber cl).getD 0) store.maxEntrySize = false
        ∧ exceedsCap ((sizeOfBuffers rawHeaders + statusMessage.length + 64 : Nat) : Int)
            store.maxEntrySize = false
        ∧ atCapacity store.entryCount store.maxEntries = false)
    ∧ (onHeaders store reqHeaders now statusCode rawHeaders statusMessage headers
          = none →
        processResponse store reqHeaders now statusCode rawHeaders statusMessage
          headers chunks rawTrailers = none) := by
  constructor
  · intro h
    unfold onHeaders at h
    cases hcc : headers.cacheControl with
    | none => rw [hcc] at h; simp at h
    | some d =>
      cases hcl : headers.contentLength with
      | none => rw [hcc, hcl] at h; simp at h
      | some cl =>
        rw [hcc, hcl] at h
        simp only at h
        refine ⟨d, cl, rfl, rfl, ?_⟩
        by_cases hg : ((jsNumber cl).isNone
            || exceedsCap ((jsNumber cl).getD 0) store.maxEntrySize
            || exceedsCap ((sizeOfBuffers rawHeaders + statusMessage.length + 64 : Nat) : Int)
                store.maxEntrySize
            || atCapacity store.entryCount store.maxEntries) = true
        · rw [if_pos hg] at h
          simp at h
        · have hg4 := hg
          simp only [Bool.or_eq_true, not_or] at hg4
          obtain ⟨⟨⟨hg1, hg2⟩, hg3⟩, hg5⟩ := hg4
          refine ⟨?_, by simpa using hg2, by simpa using hg3, by simpa using hg5⟩
          cases hj : jsNumber cl with
          | none => rw [hj] at hg1; simp at hg1
          | some n => rfl
  · intro h
    unfold processResponse
    rw [h, foldData_none]
    rfl

/-- The headers of the C7 witness scenario. -/
def c7OkHeaders : Headers :=
  { cacheControl := some { publicD := true, sMaxage := some 5 }
    contentLength := some "3" }

/-- Witness for the amended claim C7: the eligible scenario
`Cache-Control: public, s-maxage=5` with Content-Length 3 satisfies every
necessary condition, and a response with no Cache-Control header commits
nothing. -/
theorem c7EligibilityConditionsWitness :
    (∃ d cl, c7OkHeaders.cacheControl = some d
      ∧ c7OkHeaders.contentLength = some cl
      ∧ (jsNumber cl).isSome = true
      ∧ exceedsCap ((jsNumber cl).getD 0) (none : Option Nat) = false
      ∧ exceedsCap ((sizeOfBuffers ([] : List String) + ("" : String).length + 64 : Nat) : Int)
          (none : Option Nat) = false
      ∧ atCapacity 0 (none : Option Nat) = false)
    ∧ processResponse { entryCount := 0 } [] 0 200 [] "" { } ["x"] [] = none :=
  ⟨(c7EligibilityConditions { entryCount := 0 } [] 0 200 [] "" c7OkHeaders [] []).1
      (by rfl),
    (c7EligibilityConditions { entryCount := 0 } [] 0 200 [] "" { } ["x"] []).2 rfl⟩

/-- Claim C8: while a provisional entry exists, a chunk that keeps the
cumulative size within the cap is appended and accounted; a chunk pushes the
cumulative size strictly above the cap exactly when it abandons the entry
(the trigger and its converse), after which every later chunk leaves it
abandoned and completion commits nothing; and the chunk is always forwarded
to the wrapped handler with its return value propagated (no error is
raised: `onDataFull` is total and its forwarded result does not depend on
the caching outcome). -/
theorem c8OverflowAbandons {ρ α β γ : Type} (w : Wrapped ρ α β γ)
    (cap : Option Nat) (v : CacheValue) (c : String) (cs : List String)
    (rawTrailers : List String) :
    (∀ u, onData cap (some v) c = some u →
        u.size = v.size + c.length ∧ u.body = v.body ++ [c])
    ∧ (exceedsCap ((v.size + c.length : Nat) : Int) cap = true →
        onData cap (some v) c = none)
    ∧ (onData cap (some v) c = none →
        exceedsCap ((v.size + c.length : Nat) : Int) cap = true)
    ∧ List.foldl (onData cap) none cs = none
    ∧ onComplete cap (List.foldl (onData cap) none cs) rawTrailers = none
    ∧ (onDataFull w cap (some v) c).2 = w.onData c := by
  refine ⟨?_, ?_, ?_, foldData_none cap cs, ?_, rfl⟩
  · intro u hu
    simp only [onData] at hu
    split at hu
    · exact Option.noConfusion hu
    · injection hu with hu
      subst hu
      exact ⟨rfl, rfl⟩
  · intro hb
    simp only [onData]
    rw [if_pos hb]
  · intro h
    simp only [onData] at h
    by_cases hb : exceedsCap ((v.size + c.length : Nat) : Int) cap = true
    · exact hb
    · rw [if_neg hb] at h
      exact Option.noConfusion h
  · rw [foldData_none]
    rfl

/-- Claim C10: a numeric directive value of zero behaves as if the directive
were absent. `s-maxage=0` and `max-age=0` make `determineStaleAt` fall
through to the next staleness source, `s-maxage=0` does not authorize
shared-cache storage in `canCacheResponse`, and a response with
`Cache-Control: public, max-age=0` and no Expires header commits nothing. -/
theorem c10ZeroIsAbsent (store : Store) (reqHeaders : List (String × String))
    (now : Int) (statusCode : Nat) (rawHeaders : List String)
    (statusMessage : String) (headers : Headers) (d : CacheControlDirectives)
    (chunks : List String) (rawTrailers : List String) :
    (d.sMaxage = some 0 →
      determineStaleAt now headers d
        = determineStaleAt now headers { d with sMaxage := none })
    ∧ (d.maxAge = some 0 →
      determineStaleAt now headers d
        = determineStaleAt now headers { d with maxAge := none })
    ∧ (d.sMaxage = some 0 →
      canCacheResponse statusCode headers d
        = canCacheResponse statusCode headers { d with sMaxage := none })
    ∧ (headers.cacheControl = some { publicD := true, maxAge := some 0 } →
      headers.expire = none →
      processResponse store reqHeaders now statusCode rawHeaders statusMessage
        headers chunks rawTrailers = none) := by
  refine ⟨?_, ?_, ?_, ?_⟩
  · intro h
    simp [determineStaleAt, numTruthy, h]
  · intro h
    simp [determineStaleAt, numTruthy, h]
  · intro h
    simp [canCacheResponse, numTruthy, h]
  · intro hcc hexp
    have hnone : onHeaders store reqHeaders now statusCode rawHeaders
        statusMessage headers = none := by
      unfold onHeaders
      rw [hcc]
      cases hcl : headers.contentLength with
      | none => rfl
      | some cl =>
        simp only
        have hst : determineStaleAt now headers { publicD := true, maxAge := some 0 }
            = none := by
          simp [determineStaleAt, numTruthy, hexp]
        rw [hst]
        simp
    unfold processResponse
    rw [hnone, foldData_none]
    rfl

end Undici
